import Mathlib

/-!
Shallow embedding of the Antrea LFX packet-capture controller
(`pkg/controller/process_manager.go` and the controller variants in
`pkg/controller/controller.go`) as pure Lean functions, together with
theorems settling the frozen claims about the program.

External collaborators (the container runtime's PID resolution, the OS
process spawn, the filesystem glob, the informer caches and the API
server fetch) are passed in as explicit parameters, as the source calls
out to them; every branch of the embedded functions mirrors a branch of
the Go source.
-/

namespace Capture

/-- State of the ProcessManager (`process_manager.go`): the live-capture
table `pm.captures` (pod keys of running captures; a Go map, so at most
one entry per key) and the active-captures gauge updated through
`RecordCaptureActive`. -/
structure PMState where
  captures : List String
  activeGauge : Int
deriving Repr, DecidableEq

/-- Admission loop of `processQueue` (process_manager.go:106-126): the
processor reads the live-capture count under the mutex and, while the
count is at or above `maxConcurrent`, sleeps 100 ms and re-reads.  Given
the successive readings of the count (one per poll), this returns the
number of sleeps performed before the processor proceeds to
`doStartCapture`, or `none` if every reading in the trace was at or above
capacity (the processor is still waiting, and the caller blocked on the
result channel has received nothing). -/
def pollsUntilFree (maxConcurrent : Nat) : List Nat → Option Nat
  | [] => none
  | r :: rs =>
    if r < maxConcurrent then some 0
    else (pollsUntilFree maxConcurrent rs).map (· + 1)

/-- Errors `doStartCapture` can return (process_manager.go:143-210):
duplicate start, container-PID resolution failure, tcpdump spawn
failure.  There is no at-capacity error: admission in this variant never
produces one. -/
inductive StartErr where
  | alreadyRunning
  | pidResolution
  | spawnFailed
deriving Repr, DecidableEq

/-- Embedding of `doStartCapture` (process_manager.go:143-210).  Under
the lock: refuse if the key already has an entry; resolve the container
PID (`getContainerPID`, outcome passed in as `pidResult`); spawn tcpdump
via nsenter (outcome passed in as `spawnOk`); on success record the
capture and bump the gauge. -/
def doStartCapture (s : PMState) (key : String) (pidResult : Option Nat)
    (spawnOk : Bool) : Except StartErr Unit × PMState :=
  if key ∈ s.captures then (Except.error StartErr.alreadyRunning, s)
  else
    match pidResult with
    | none => (Except.error StartErr.pidResolution, s)
    | some _ =>
      if spawnOk then
        (Except.ok (), { captures := key :: s.captures, activeGauge := s.activeGauge + 1 })
      else (Except.error StartErr.spawnFailed, s)

/-- Embedding of the exit observer `monitorProcess` after `cmd.Wait`
returns (process_manager.go:213-229): under the lock, delete the key and
decrement the gauge only if the key is still present. -/
def monitorProcessCleanup (s : PMState) (key : String) : PMState :=
  if key ∈ s.captures then
    { captures := s.captures.erase key, activeGauge := s.activeGauge - 1 }
  else s

/-- Embedding of `StopCapture` (process_manager.go:232-257): under the
lock, remove the key and decrement the gauge if present; the returned
flag records whether the process-group kill and the pcap file cleanup
are then performed (true exactly when the key was present). -/
def pmStopCapture (s : PMState) (key : String) : PMState × Bool :=
  if key ∈ s.captures then
    ({ captures := s.captures.erase key, activeGauge := s.activeGauge - 1 }, true)
  else (s, false)

/-- Status of a PacketCapture resource
(`pkg/apis/packetcapture/types.go`). -/
structure PCStatus where
  phase : String
  fileLocation : String
  message : String
  nodeName : String
deriving Repr, DecidableEq

/-- Embedding of `statusEqual` (controller.go, CRD variant): field-wise
equality on phase / file location / message / owner node. -/
def statusEqual (a b : PCStatus) : Bool :=
  a.phase == b.phase && a.fileLocation == b.fileLocation &&
  a.message == b.message && a.nodeName == b.nodeName

/-- Embedding of `updatePacketCaptureStatus` (controller.go, CRD
variant, lines 901-938), one iteration of the conflict-retry loop.  The
freshly fetched resource's status is `fetched` (`none` models a
NotFound, treated as success-no-op); the owner-node guard and the
field-wise equality check are re-applied to it before the write.  The
result is the status written, or `none` when no write is performed. -/
def updatePacketCaptureStatus (selfNode : String) (desired : PCStatus)
    (fetched : Option PCStatus) : Option PCStatus :=
  match fetched with
  | none => none
  | some cur =>
    if cur.nodeName ≠ "" ∧ cur.nodeName ≠ selfNode then none
    else if statusEqual cur desired then none
    else some desired

/-- Embedding of `ensurePacketCaptureStatus` (controller.go, CRD
variant, lines 887-895): skip if the currently known status is owned by
a different node, skip if `desired` equals `current` field-wise,
otherwise perform the guarded update against the freshly fetched
status. -/
def ensurePacketCaptureStatus (selfNode : String) (current desired : PCStatus)
    (fetched : Option PCStatus) : Option PCStatus :=
  if current.nodeName ≠ "" ∧ current.nodeName ≠ selfNode then none
  else if statusEqual current desired then none
  else updatePacketCaptureStatus selfNode desired fetched

/-- Per-pod CaptureState of the CRD-variant controller (controller.go
lines 353-360); the one-shot stop timer is represented by the timeout
value recorded in it. -/
structure CtrlCaptureState where
  captureKey : String
  fileLocation : String
  filePattern : String
  timeoutNs : Nat
deriving Repr, DecidableEq

/-- State of the CRD-variant controller: the live-capture table
`activeCaptures` (pod key to CaptureState) and the job-to-pods index
`capturePods` (capture key to pod keys), both Go maps modelled as
association lists. -/
structure CtrlState where
  activeCaptures : List (String × CtrlCaptureState)
  capturePods : List (String × List String)
deriving Repr, DecidableEq

/-- Deletion from a Go map modelled on an association list. -/
def delAssoc {α : Type} (l : List (String × α)) (k : String) : List (String × α) :=
  l.filter (fun kv => kv.1 != k)

/-- Insertion into a Go map modelled on an association list (overwrites
any previous binding of the key). -/
def setAssoc {α : Type} (l : List (String × α)) (k : String) (v : α) : List (String × α) :=
  (k, v) :: delAssoc l k

/-- Embedding of `getCaptureState` (controller.go:840-844). -/
def getCaptureState (st : CtrlState) (podKey : String) : Option CtrlCaptureState :=
  st.activeCaptures.lookup podKey

/-- Embedding of `capturePodsForKey` (controller.go:830-838): the pod
keys currently captured on behalf of a capture key. -/
def capturePodsForKey (st : CtrlState) (captureKey : String) : List String :=
  (st.capturePods.lookup captureKey).getD []

/-- Embedding of `activeCountForCapture` (controller.go:846-850). -/
def activeCountForCapture (st : CtrlState) (captureKey : String) : Nat :=
  (capturePodsForKey st captureKey).length

/-- Embedding of `latestCaptureFile` (controller.go:863-885).  The glob
result is passed in as the list of matched file names with their
modification times; the most recently modified name is returned, or the
fallback location when the glob matched nothing. -/
def latestCaptureFile (files : List (String × Nat)) (fallback : String) : String :=
  let latest := files.foldl (fun acc f => if f.2 > acc.2 then f else acc) ("", 0)
  if latest.1 = "" then fallback else latest.1

/-- Observable effects of one controller `stopCapture` call: whether the
ProcessManager's StopCapture was invoked for the pod, and the status
write (capture key and status) issued, if any. -/
structure StopEffects where
  pmStopped : Bool
  statusWrite : Option (String × PCStatus)
deriving Repr, DecidableEq

/-- Effects of a stop that found no CaptureState: nothing happens. -/
def noStopEffects : StopEffects := { pmStopped := false, statusWrite := none }

/-- Embedding of the CRD-variant `stopCapture` (controller.go:737-778).
Under the lock: remove the CaptureState if present, stop its timer, and
remove the pod from the job-to-pods index (dropping the index entry when
it becomes empty).  If no state was present this is a no-op.  Otherwise
the ProcessManager stop runs; a status is then written only when `phase`
is non-empty and the capture's active-pod count has reached zero.  The
filesystem glob is passed in as `fs`. -/
def ctrlStopCapture (st : CtrlState) (fs : String → List (String × Nat))
    (nodeName podKey phase message : String) : CtrlState × StopEffects :=
  match getCaptureState st podKey with
  | none => (st, noStopEffects)
  | some state =>
    let active2 := delAssoc st.activeCaptures podKey
    let capturePods2 :=
      match st.capturePods.lookup state.captureKey with
      | none => st.capturePods
      | some ps =>
        let ps2 := ps.filter (fun p => p != podKey)
        if ps2.isEmpty then delAssoc st.capturePods state.captureKey
        else setAssoc st.capturePods state.captureKey ps2
    let st2 : CtrlState := { activeCaptures := active2, capturePods := capturePods2 }
    if phase = "" then (st2, { pmStopped := true, statusWrite := none })
    else if activeCountForCapture st2 state.captureKey ≠ 0 then
      (st2, { pmStopped := true, statusWrite := none })
    else
      (st2, { pmStopped := true,
              statusWrite := some (state.captureKey,
                { phase := phase,
                  fileLocation := latestCaptureFile (fs state.filePattern) state.fileLocation,
                  message := message, nodeName := nodeName }) })

/-- Rendering of the timed-out message (controller.go:733,
`fmt.Sprintf` with the timeout's `Duration.String()`; the duration
rendering is abstracted to the decimal value). -/
def timedOutMessage (timeoutNs : Nat) : String :=
  "Capture timed out after " ++ toString timeoutNs

/-- Embedding of `stopCaptureForTimeout` (controller.go:725-735): the
one-shot timer callback looks up the pod's CaptureState and, when still
present, stops the capture with phase Completed and the timed-out
message; when the state is gone it is a no-op. -/
def stopCaptureForTimeout (st : CtrlState) (fs : String → List (String × Nat))
    (nodeName podKey : String) : CtrlState × StopEffects :=
  match getCaptureState st podKey with
  | none => (st, noStopEffects)
  | some state =>
    ctrlStopCapture st fs nodeName podKey "Completed" (timedOutMessage state.timeoutNs)

/-- Snapshot of a Pod as read from the informer cache: namespace, name,
node name, labels, and the container IDs of `Status.ContainerStatuses`
in order. -/
structure PodM where
  ns : String
  name : String
  nodeName : String
  lbls : List (String × String)
  containerIDs : List String
deriving Repr, DecidableEq

/-- A PacketCapture resource as read from the informer cache.  The label
selector is represented by the outcome of
`metav1.LabelSelectorAsSelector`: `selectorValid` is false when the
conversion errors, and `selMatches` is the resulting match predicate on
a pod's labels. -/
structure PacketCaptureR where
  ns : String
  name : String
  selectorValid : Bool
  selMatches : List (String × String) → Bool
  timeoutNs : Nat
  status : PCStatus

/-- Outcome of the ProcessManager's StartCapture as seen by the
CRD-variant controller (controller.go:691-699): success, the
at-capacity error `ErrMaxConcurrent` (declared in the process-manager
revision paired with this controller, not present in this tree), or any
other start error. -/
inductive SMResult where
  | ok
  | maxConcurrent
  | otherErr
deriving Repr, DecidableEq

/-- Effects of one CRD-variant `startCapture` call: a delayed requeue of
a key (with its delay in milliseconds), and a hard error, when any. -/
structure StartEffects where
  addAfter : Option (String × Nat)
  hardErr : Option String
deriving Repr, DecidableEq

/-- Embedding of `captureFileLocation` (controller.go:795-797). -/
def captureFileLocation (captureDir captureName podName : String) : String :=
  captureDir ++ "/capture-" ++ captureName ++ "-" ++ podName ++ ".pcap"

/-- Embedding of `captureFilePattern` (controller.go:799-801). -/
def captureFilePattern (captureDir captureName podName : String) : String :=
  captureDir ++ "/capture-" ++ captureName ++ "-" ++ podName ++ ".pcap*"

/-- Embedding of the CRD-variant `startCapture` (controller.go:678-723).
The first container ID is required; the ProcessManager start outcome is
passed in as `sm`.  On `ErrMaxConcurrent` the capture key is requeued
after a fixed 2-second delay and the call returns without error; any
other start error is a hard error; on success the CaptureState is
recorded in the table and the job-to-pods index. -/
def startCaptureCRD (st : CtrlState) (captureDir captureKey pcName : String)
    (timeoutNs : Nat) (pod : PodM) (sm : SMResult) : CtrlState × StartEffects :=
  let key := pod.ns ++ "/" ++ pod.name
  let containerID := pod.containerIDs.headD ""
  if containerID = "" then
    (st, { addAfter := none, hardErr := some ("no container ID found for pod " ++ key) })
  else
    match sm with
    | SMResult.maxConcurrent =>
      (st, { addAfter := some (captureKey, 2000), hardErr := none })
    | SMResult.otherErr =>
      (st, { addAfter := none, hardErr := some "failed to start capture" })
    | SMResult.ok =>
      let state : CtrlCaptureState :=
        { captureKey := captureKey,
          fileLocation := captureFileLocation captureDir pcName pod.name,
          filePattern := captureFilePattern captureDir pcName pod.name,
          timeoutNs := timeoutNs }
      let pods := (st.capturePods.lookup captureKey).getD []
      ({ activeCaptures := setAssoc st.activeCaptures key state,
         capturePods := setAssoc st.capturePods captureKey
           (key :: pods.filter (fun p => p != key)) },
       { addAfter := none, hardErr := none })

/-- Start loop of `reconcileCapture` (controller.go:662-673): for each
desired pod, skip it when a CaptureState already exists (first-writer
wins), otherwise attempt a start; a hard start error aborts the loop,
and every scheduled delayed requeue is collected. -/
def startLoop (captureDir captureKey pcName : String) (timeoutNs : Nat)
    (sm : String → SMResult) :
    CtrlState → List PodM → CtrlState × List (String × Nat) × Option String
  | st, [] => (st, [], none)
  | st, pod :: rest =>
    let key := pod.ns ++ "/" ++ pod.name
    match getCaptureState st key with
    | some _ => startLoop captureDir captureKey pcName timeoutNs sm st rest
    | none =>
      let r := startCaptureCRD st captureDir captureKey pcName timeoutNs pod (sm key)
      match r.2.hardErr with
      | some e => (r.1, r.2.addAfter.toList, some e)
      | none =>
        let nxt := startLoop captureDir captureKey pcName timeoutNs sm r.1 rest
        (nxt.1, r.2.addAfter.toList ++ nxt.2.1, nxt.2.2)

/-- Embedding of `reconcileCapture` (controller.go:654-676): stop every
existing capture of this key whose pod is no longer desired, then run
the start loop over the desired pods.  Returns the new state, the
delayed requeues scheduled, and the hard error aborting the cycle, if
any. -/
def reconcileCapture (st : CtrlState) (fs : String → List (String × Nat))
    (nodeName captureDir captureKey pcName : String) (timeoutNs : Nat)
    (desired : List PodM) (sm : String → SMResult) :
    CtrlState × List (String × Nat) × Option String :=
  let desiredKeys := desired.map (fun p => p.ns ++ "/" ++ p.name)
  let existing := capturePodsForKey st captureKey
  let st1 := existing.foldl
    (fun acc pk =>
      if desiredKeys.contains pk then acc
      else (ctrlStopCapture acc fs nodeName pk "" "").1) st
  startLoop captureDir captureKey pcName timeoutNs sm st1 desired

/-- Embedding of the pod lister scoped to a namespace
(`c.podLister.Pods(pc.Namespace).List(selector)`, controller.go:599):
from the full pod cache, the pods in that namespace whose labels the
selector matches. -/
def listPodsInNamespace (allPods : List PodM) (ns : String)
    (sel : List (String × String) → Bool) : List PodM :=
  allPods.filter (fun p => p.ns == ns && sel p.lbls)

/-- Desired pod set of a capture job (controller.go:599-610): pods
listed in the job's own namespace by its selector, restricted to the
local node. -/
def desiredPods (allPods : List PodM) (pc : PacketCaptureR) (nodeName : String) : List PodM :=
  (listPodsInNamespace allPods pc.ns pc.selMatches).filter (fun p => p.nodeName == nodeName)

/-- Embedding of `enqueueMatchingPacketCaptures` (controller.go:485-508):
for a pod change on the local node, enqueue the key of every
PacketCapture in the store whose namespace equals the pod's namespace
and whose (valid) selector matches the pod's labels. -/
def enqueueMatchingPacketCaptures (pod : PodM) (pcs : List PacketCaptureR)
    (selfNode : String) : List String :=
  if pod.nodeName != selfNode then []
  else
    (pcs.filter (fun pc => pc.ns == pod.ns && pc.selectorValid && pc.selMatches pod.lbls)).map
      (fun pc => pc.ns ++ "/" ++ pc.name)

/-- Embedding of `firstFileLocationForCapture` (controller.go:852-861):
the latest capture file of the first indexed pod that still has a
CaptureState, or the empty string. -/
def firstFileLocationForCapture (st : CtrlState) (fs : String → List (String × Nat))
    (captureKey : String) : String :=
  match (capturePodsForKey st captureKey).findSome?
      (fun pk => (getCaptureState st pk).map
        (fun s => latestCaptureFile (fs s.filePattern) s.fileLocation)) with
  | some loc => loc
  | none => ""

/-- Embedding of `cleanupCapture` (controller.go:780-793): stop every
capture recorded for the key in the job-to-pods index (the per-capture
artifact cleanup then follows). -/
def cleanupCapture (st : CtrlState) (fs : String → List (String × Nat))
    (nodeName captureKey : String) : CtrlState :=
  (capturePodsForKey st captureKey).foldl
    (fun acc pk => (ctrlStopCapture acc fs nodeName pk "" "").1) st

/-- Observable effects of one `syncPacketCapture` call: the status write
issued through `ensurePacketCaptureStatus` (if any), the delayed
requeues scheduled, and whether the missing-resource cleanup path
ran. -/
structure SyncEffects where
  statusWrite : Option PCStatus
  addAfter : List (String × Nat)
  cleanedUp : Bool
deriving Repr, DecidableEq

/-- Effects of a sync that did nothing. -/
def noSyncEffects : SyncEffects := { statusWrite := none, addAfter := [], cleanedUp := false }

/-- Embedding of `syncPacketCapture` (controller.go:576-652).  The
informer lookup of the resource is `pcLookup` (`none` means absent), the
pod cache is `allPods`, the ProcessManager start outcomes are `sm`, and
the API-server fetch used by the status writer is `fetched`.  Mirrors
the source branch for branch: missing resource cleanup, the early return
on phase Completed, the invalid-selector Failed status, reconcile, and
the aggregate-phase derivation. -/
def syncPacketCapture (st : CtrlState) (fs : String → List (String × Nat))
    (nodeName captureDir key : String) (pcLookup : Option PacketCaptureR)
    (allPods : List PodM) (sm : String → SMResult) (fetched : Option PCStatus) :
    CtrlState × SyncEffects × Option String :=
  match pcLookup with
  | none =>
    (cleanupCapture st fs nodeName key,
     { statusWrite := none, addAfter := [], cleanedUp := true }, none)
  | some pc =>
    if pc.status.phase = "Completed" then (st, noSyncEffects, none)
    else if ¬ pc.selectorValid then
      (st, { statusWrite := ensurePacketCaptureStatus nodeName pc.status
               { phase := "Failed", fileLocation := "", message := "Invalid podSelector",
                 nodeName := "" } fetched,
             addAfter := [], cleanedUp := false }, none)
    else
      let desired := desiredPods allPods pc nodeName
      let r := reconcileCapture st fs nodeName captureDir key pc.name pc.timeoutNs desired sm
      match r.2.2 with
      | some e => (r.1, { statusWrite := none, addAfter := r.2.1, cleanedUp := false }, some e)
      | none =>
        let st2 := r.1
        if desired.isEmpty then
          if pc.status.nodeName ≠ "" ∧ pc.status.nodeName ≠ nodeName then
            (st2, { statusWrite := none, addAfter := r.2.1, cleanedUp := false }, none)
          else if pc.status.phase = "Running" ∨ pc.status.phase = "Completed" then
            (st2, { statusWrite := none, addAfter := r.2.1, cleanedUp := false }, none)
          else if pc.status.phase ≠ "Completed" then
            (st2, { statusWrite := ensurePacketCaptureStatus nodeName pc.status
                      { phase := "Pending", fileLocation := "",
                        message := "No matching pods on this node", nodeName := "" } fetched,
                    addAfter := r.2.1, cleanedUp := false }, none)
          else (st2, { statusWrite := none, addAfter := r.2.1, cleanedUp := false }, none)
        else if 0 < activeCountForCapture st2 key then
          (st2, { statusWrite := ensurePacketCaptureStatus nodeName pc.status
                    { phase := "Running",
                      fileLocation := firstFileLocationForCapture st2 fs key,
                      message := "", nodeName := nodeName } fetched,
                  addAfter := r.2.1, cleanedUp := false }, none)
        else if pc.status.phase = "Completed" then
          (st2, { statusWrite := none, addAfter := r.2.1, cleanedUp := false }, none)
        else
          (st2, { statusWrite := ensurePacketCaptureStatus nodeName pc.status
                    { phase := "Pending", fileLocation := "",
                      message := "Waiting for capture to start", nodeName := nodeName } fetched,
                  addAfter := r.2.1, cleanedUp := false }, none)

/-- Disposition of a work item by the queue logic. -/
inductive QueueAction where
  | forget
  | addRateLimited
deriving Repr, DecidableEq

/-- Retry classification of the CRD-variant `processNextWorkItem`
(controller.go:545-574): success clears retry bookkeeping; a sync error
is requeued rate-limited while fewer than 5 requeues have happened,
otherwise the item is dropped. -/
def processNextWorkItem (syncErr : Option String) (numRequeues : Nat) : QueueAction :=
  match syncErr with
  | none => QueueAction.forget
  | some _ => if numRequeues < 5 then QueueAction.addRateLimited else QueueAction.forget

/-- Digit-string accumulator for the `strconv.Atoi` model: consumes the
remaining characters, failing on any non-digit. -/
def digitsToNatAux : Nat → List Char → Option Nat
  | acc, [] => some acc
  | acc, c :: rest =>
    if c.isDigit then digitsToNatAux (acc * 10 + (c.toNat - '0'.toNat)) rest
    else none

/-- Parse a non-empty all-digit character list to its decimal value. -/
def digitsToNat (l : List Char) : Option Nat :=
  if l.isEmpty then none else digitsToNatAux 0 l

/-- Model of Go's `strconv.Atoi`: an optional sign followed by at least
one base-10 digit, rejected when the value does not fit a signed 64-bit
integer (the range error case). -/
def goAtoi (s : String) : Option Int :=
  match s.data with
  | [] => none
  | c :: rest =>
    let signed : Bool × List Char :=
      if c = '-' then (true, rest)
      else if c = '+' then (false, rest)
      else (false, c :: rest)
    match digitsToNat signed.2 with
    | none => none
    | some n =>
      let v : Int := if signed.1 then -(n : Int) else (n : Int)
      if v < -(2 ^ 63) ∨ (2 ^ 63 - 1) < v then none else some v

/-- Embedding of `parseMaxFiles` (controller.go:1170-1179, annotation
variant): `strconv.Atoi` followed by the positivity check; `none` is the
error case. -/
def parseMaxFiles (value : String) : Option Int :=
  match goAtoi value with
  | none => none
  | some n => if n ≤ 0 then none else some n

/-- Per-pod CaptureState of the annotation-variant controller
(controller.go:976-981). -/
structure ACaptureState where
  fileLocation : String
  filePattern : String
  maxFiles : Int
deriving Repr, DecidableEq

/-- State of the annotation-variant controller: its `activeCaptures`
map. -/
structure AState where
  activeCaptures : List (String × ACaptureState)
deriving Repr, DecidableEq

/-- Pod snapshot for the annotation variant: node, phase, annotations,
the spec container names in order, and the status container statuses as
(name, containerID) pairs. -/
structure APod where
  ns : String
  name : String
  nodeName : String
  phase : String
  annotations : List (String × String)
  containers : List String
  containerStatuses : List (String × String)
deriving Repr, DecidableEq

/-- Sync errors of the annotation variant: the dedicated `terminalError`
type versus a plain error (controller.go:963-974). -/
inductive AErr where
  | terminal (msg : String)
  | plain (msg : String)
deriving Repr, DecidableEq

/-- Whether an error is the annotation variant's `terminalError`. -/
def isTerminalErr : Option AErr → Bool
  | some (AErr.terminal _) => true
  | _ => false

/-- Retry classification of the annotation-variant
`processNextWorkItem` (controller.go:1103-1131): success or a terminal
error forgets the item; any other error requeues it rate-limited. -/
def aProcessNextWorkItem (syncErr : Option AErr) : QueueAction :=
  match syncErr with
  | none => QueueAction.forget
  | some (AErr.terminal _) => QueueAction.forget
  | some (AErr.plain _) => QueueAction.addRateLimited

/-- Embedding of the annotation-variant `stopCapture`
(controller.go:1254-1268): remove the CaptureState if present; the flag
records whether the ProcessManager stop and the per-pod file cleanup
then run. -/
def aStopCapture (st : AState) (podKey : String) : AState × Bool :=
  match st.activeCaptures.lookup podKey with
  | none => (st, false)
  | some _ => ({ activeCaptures := delAssoc st.activeCaptures podKey }, true)

/-- Container-ID lookup of the annotation-variant `startCapture`
(controller.go:1222-1228): the ID of the first container status whose
name equals the target, or the empty string. -/
def containerIDFor (pod : APod) (target : String) : String :=
  match pod.containerStatuses.lookup target with
  | some cid => cid
  | none => ""

/-- Body of the annotation-variant `startCapture` after the
existing-capture check (controller.go:1201-1252): require phase Running,
classify a pod with zero containers as Terminal, select the first
container deterministically, require its container ID, then start via
the ProcessManager (outcome `pmErr`) and record the CaptureState. -/
def aStartCaptureBody (st : AState) (captureDir key : String) (pod : APod)
    (maxFiles : Int) (pmErr : Option String) : AState × Option AErr :=
  if pod.phase ≠ "Running" then
    (st, some (AErr.plain ("pod " ++ key ++ " is not running")))
  else if pod.containers.isEmpty then
    (st, some (AErr.terminal ("pod " ++ key ++ " has no containers")))
  else
    let target := pod.containers.headD ""
    let containerID := containerIDFor pod target
    if containerID = "" then
      (st, some (AErr.plain ("no container ID found for container " ++ target ++
        " in pod " ++ key)))
    else
      match pmErr with
      | some e => (st, some (AErr.plain ("failed to start capture: " ++ e)))
      | none =>
        ({ activeCaptures := setAssoc st.activeCaptures key
            { fileLocation := captureDir ++ "/capture-" ++ pod.name ++ ".pcap",
              filePattern := captureDir ++ "/capture-" ++ pod.name ++ ".pcap*",
              maxFiles := maxFiles } }, none)

/-- Embedding of the annotation-variant `startCapture`
(controller.go:1181-1252): when a capture with the same maxFiles already
runs, do nothing; when the annotation value changed, stop and restart;
otherwise run the start body. -/
def aStartCapture (st : AState) (captureDir key : String) (pod : APod)
    (maxFiles : Int) (pmErr : Option String) : AState × Option AErr :=
  match st.activeCaptures.lookup key with
  | some existing =>
    if existing.maxFiles = maxFiles then (st, none)
    else aStartCaptureBody (aStopCapture st key).1 captureDir key pod maxFiles pmErr
  | none => aStartCaptureBody st captureDir key pod maxFiles pmErr

/-- Embedding of the annotation-variant `syncPod`
(controller.go:1134-1168).  The lister result is `lookup` (`none`
models NotFound).  A pod that is gone, off-node, unannotated, or carries
an invalid annotation value has any active capture stopped and the sync
returns success; otherwise the capture is started. -/
def syncPodA (st : AState) (captureDir key selfNode : String) (lookup : Option APod)
    (pmErr : Option String) : AState × Option AErr :=
  match lookup with
  | none => ((aStopCapture st key).1, none)
  | some pod =>
    if pod.nodeName ≠ selfNode then ((aStopCapture st key).1, none)
    else
      match pod.annotations.lookup "tcpdump.antrea.io" with
      | none => ((aStopCapture st key).1, none)
      | some v =>
        match parseMaxFiles v with
        | none => ((aStopCapture st key).1, none)
        | some mf => aStartCapture st captureDir key pod mf pmErr

/-- Concrete reconcile run used to exhibit the at-capacity loop
behaviour: two desired pods on the local node, no existing captures, the
ProcessManager reporting at-capacity for the first pod and success for
the second. -/
def reconcileAtCapacityRun : CtrlState × List (String × Nat) × Option String :=
  reconcileCapture ⟨[], []⟩ (fun _ => []) "node1" "/captures" "ns/pc" "pc" 0
    [⟨"ns", "p1", "node1", [], ["docker://c1"]⟩, ⟨"ns", "p2", "node1", [], ["docker://c2"]⟩]
    (fun k => if k == "ns/p1" then SMResult.maxConcurrent else SMResult.ok)

/-- Sample pod for witnessing namespace-scoped matching. -/
def podSample : PodM := ⟨"ns1", "p1", "n1", [("app", "x")], []⟩

/-- Sample PacketCapture in the sample pod's namespace whose selector
matches everything. -/
def pcSample : PacketCaptureR := ⟨"ns1", "pc1", true, (fun _ => true), 0, ⟨"", "", "", ""⟩⟩

/-- Running pod whose first (and only) container has an empty container
ID in its status. -/
def podMissingID : APod :=
  ⟨"ns", "p", "n1", "Running", [("tcpdump.antrea.io", "3")], ["c1"], [("c1", "")]⟩

/-- Running pod with zero containers. -/
def podZeroContainers : APod :=
  ⟨"ns", "p", "n1", "Running", [("tcpdump.antrea.io", "3")], [], []⟩

/-- Annotated pod whose annotation value is "0" (not a positive
integer). -/
def podBadAnnotation : APod :=
  ⟨"ns", "p", "n1", "Running", [("tcpdump.antrea.io", "0")], ["c1"], [("c1", "docker://x")]⟩

/-- C1 counterexample: the claim that a start request arriving at
capacity immediately receives an at-capacity error is false on the code.
With `maxConcurrent = 1` and the live-capture count observed at 1 on
three successive polls, the queue processor has still answered nothing
(`none`): the request sits queued while the processor sleeps.  And when
the count drops to 0 on the second poll, the processor proceeds after
one sleep (`some 1`, not `some 0`): the request waited for a slot to
free instead of erroring. -/
theorem c1_counterexample :
    pollsUntilFree 1 [1, 1, 1] = none ∧
    pollsUntilFree 1 [1, 0] = some 1 ∧ (some 1 : Option Nat) ≠ some 0 := by
  decide

/-- C1 (amended): admission in `processQueue` is blocking, not
fail-fast.  If every polled reading of the live-capture count stays at
or above `maxConcurrent`, the processor never proceeds and the caller
blocked on the result channel receives nothing; and whenever the
processor does proceed after `k` polls, the first `k` readings were all
at capacity (it slept through each of them) and the `k`-th reading was
below capacity.  No at-capacity error is ever delivered. -/
theorem c1_blocking_admission (maxConcurrent : Nat) (trace : List Nat) :
    ((∀ r ∈ trace, maxConcurrent ≤ r) → pollsUntilFree maxConcurrent trace = none) ∧
    (∀ k, pollsUntilFree maxConcurrent trace = some k →
      k < trace.length ∧ trace.getD k 0 < maxConcurrent ∧
      ∀ i, i < k → maxConcurrent ≤ trace.getD i 0) := by
  induction trace with
  | nil =>
    refine ⟨fun _ => rfl, fun k hk => ?_⟩
    simp [pollsUntilFree] at hk
  | cons r rs ih =>
    constructor
    · intro hall
      have hr : ¬ r < maxConcurrent := by
        have := hall r (by simp)
        omega
      simp only [pollsUntilFree, if_neg hr]
      rw [ih.1 (fun x hx => hall x (by simp [hx]))]
      rfl
    · intro k hk
      by_cases hr : r < maxConcurrent
      · simp only [pollsUntilFree, if_pos hr, Option.some.injEq] at hk
        subst hk
        exact ⟨by simp, by simpa using hr, fun i hi => absurd hi (Nat.not_lt_zero i)⟩
      · simp only [pollsUntilFree, if_neg hr, Option.map_eq_some'] at hk
        obtain ⟨k0, hk0, rfl⟩ := hk
        obtain ⟨hlen, hget, hall⟩ := ih.2 k0 hk0
        refine ⟨by simpa using Nat.succ_lt_succ hlen, by simpa using hget, ?_⟩
        intro i hi
        cases i with
        | zero => simpa using Nat.le_of_not_lt hr
        | succ j => simpa using hall j (by omega)

/-- C1 witness: with the bound at 2 and three successive readings of 2
the request is never answered. -/
theorem c1_blocking_admission_witness :
    (∀ r ∈ [2, 2, 2], 2 ≤ r) ∧ pollsUntilFree 2 [2, 2, 2] = none :=
  ⟨by decide, (c1_blocking_admission 2 [2, 2, 2]).1 (by decide)⟩

/-- C2: for a capture whose key is live, the exit observer's cleanup and
an explicit StopCapture remove the CaptureState and decrement the count
exactly once between them, in either order: both produce the same
removed state, the loser of the race is a no-op (the explicit stop even
skips the kill), the count drops by exactly one, and a successful start
followed by the racing pair restores the original table and count. -/
theorem c2_slot_release_exactly_once (s : PMState) (key : String)
    (hmem : key ∈ s.captures) (hnd : s.captures.Nodup) :
    monitorProcessCleanup s key = (pmStopCapture s key).1 ∧
    pmStopCapture (monitorProcessCleanup s key) key = (monitorProcessCleanup s key, false) ∧
    monitorProcessCleanup (pmStopCapture s key).1 key = (pmStopCapture s key).1 ∧
    (monitorProcessCleanup s key).activeGauge = s.activeGauge - 1 ∧
    key ∉ (monitorProcessCleanup s key).captures ∧
    (∀ (t : PMState) (p : Nat), key ∉ t.captures →
      (monitorProcessCleanup (doStartCapture t key (some p) true).2 key).captures = t.captures ∧
      (monitorProcessCleanup (doStartCapture t key (some p) true).2 key).activeGauge =
        t.activeGauge) := by
  have hnot : key ∉ s.captures.erase key := by
    intro hh
    exact ((hnd.mem_erase_iff).1 hh).1 rfl
  refine ⟨?_, ?_, ?_, ?_, ?_, ?_⟩
  · simp [monitorProcessCleanup, pmStopCapture, hmem]
  · simp [monitorProcessCleanup, pmStopCapture, hmem, hnot]
  · simp [monitorProcessCleanup, pmStopCapture, hmem, hnot]
  · simp [monitorProcessCleanup, hmem]
  · simp only [monitorProcessCleanup, if_pos hmem]
    exact hnot
  · intro t p hnt
    simp only [doStartCapture, if_neg hnt, if_pos trivial]
    constructor
    · simp [monitorProcessCleanup, List.erase_cons_head]
    · simp [monitorProcessCleanup]

/-- C2 witness at a one-entry table. -/
theorem c2_slot_release_exactly_once_witness :
    ("a" ∈ ["a"]) ∧ (["a"] : List String).Nodup ∧
    monitorProcessCleanup ⟨["a"], 1⟩ "a" = (pmStopCapture ⟨["a"], 1⟩ "a").1 :=
  ⟨by decide, by decide,
    (c2_slot_release_exactly_once ⟨["a"], 1⟩ "a" (by decide) (by decide)).1⟩

/-- C3: the live-capture table keeps at most one CaptureState per pod
key (key uniqueness is preserved by start, stop and exit cleanup), and a
start attempt for a key that already has one is refused with the
already-running error, leaving the table unchanged. -/
theorem c3_at_most_one_capture_state (s : PMState) (key : String) (p : Option Nat)
    (b : Bool) (hnd : s.captures.Nodup) :
    (doStartCapture s key p b).2.captures.Nodup ∧
    (pmStopCapture s key).1.captures.Nodup ∧
    (monitorProcessCleanup s key).captures.Nodup ∧
    (key ∈ s.captures →
      doStartCapture s key p b = (Except.error StartErr.alreadyRunning, s)) := by
  refine ⟨?_, ?_, ?_, ?_⟩
  · by_cases hk : key ∈ s.captures
    · simp [doStartCapture, hk, hnd]
    · cases p with
      | none => simpa [doStartCapture, hk] using hnd
      | some q =>
        cases b with
        | false => simpa [doStartCapture, hk] using hnd
        | true =>
          simp only [doStartCapture, if_neg hk, if_pos trivial]
          exact List.nodup_cons.mpr ⟨hk, hnd⟩
  · by_cases hk : key ∈ s.captures
    · simp only [pmStopCapture, if_pos hk]
      exact hnd.erase key
    · simpa [pmStopCapture, hk] using hnd
  · by_cases hk : key ∈ s.captures
    · simp only [monitorProcessCleanup, if_pos hk]
      exact hnd.erase key
    · simpa [monitorProcessCleanup, hk] using hnd
  · intro hk
    simp [doStartCapture, hk]

/-- C3 witness: a duplicate start on a one-entry table is refused. -/
theorem c3_at_most_one_capture_state_witness :
    (["a"] : List String).Nodup ∧ ("a" ∈ ["a"]) ∧
    doStartCapture ⟨["a"], 1⟩ "a" none false =
      (Except.error StartErr.alreadyRunning, ⟨["a"], 1⟩) :=
  ⟨by decide, by decide,
    (c3_at_most_one_capture_state ⟨["a"], 1⟩ "a" none false (by decide)).2.2.2 (by decide)⟩

/-- C7: stopping is idempotent.  The ProcessManager's StopCapture on a
key with no CaptureState returns the state untouched and performs no
kill or cleanup, and the timeout callback firing after the pod's
CaptureState was already removed is a no-op: no state change, no
ProcessManager stop, no status write. -/
theorem c7_stop_idempotent (s : PMState) (key : String) (st : CtrlState)
    (fs : String → List (String × Nat)) (selfNode podKey : String) :
    (key ∉ s.captures → pmStopCapture s key = (s, false)) ∧
    (getCaptureState st podKey = none →
      stopCaptureForTimeout st fs selfNode podKey = (st, noStopEffects)) := by
  constructor
  · intro hk
    simp [pmStopCapture, hk]
  · intro hk
    simp [stopCaptureForTimeout, hk]

/-- C7 witness on empty tables. -/
theorem c7_stop_idempotent_witness :
    ("a" ∉ ([] : List String)) ∧ pmStopCapture ⟨[], 0⟩ "a" = (⟨[], 0⟩, false) ∧
    getCaptureState ⟨[], []⟩ "a" = none ∧
    stopCaptureForTimeout ⟨[], []⟩ (fun _ => []) "n" "a" = (⟨[], []⟩, noStopEffects) :=
  ⟨by decide,
    (c7_stop_idempotent ⟨[], 0⟩ "a" ⟨[], []⟩ (fun _ => []) "n" "a").1 (by decide),
    rfl,
    (c7_stop_idempotent ⟨[], 0⟩ "a" ⟨[], []⟩ (fun _ => []) "n" "a").2 rfl⟩

/-- C5: the status synchronizer writes nothing when the desired status
equals the currently known one field-wise, writes nothing when the known
status is owned by a different node, and on the update path a write only
happens when the freshly fetched status passes both checks again: the
fetched owner is empty or self, the fetched status differs from the
desired one, and what is written is exactly the desired status. -/
theorem c5_status_write_guards (selfNode : String) (current desired : PCStatus)
    (fetched : Option PCStatus) :
    (statusEqual current desired = true →
      ensurePacketCaptureStatus selfNode current desired fetched = none) ∧
    (current.nodeName ≠ "" → current.nodeName ≠ selfNode →
      ensurePacketCaptureStatus selfNode current desired fetched = none) ∧
    (∀ w, ensurePacketCaptureStatus selfNode current desired fetched = some w →
      w = desired ∧ ∃ cur, fetched = some cur ∧
        (cur.nodeName = "" ∨ cur.nodeName = selfNode) ∧ statusEqual cur desired = false) := by
  refine ⟨?_, ?_, ?_⟩
  · intro h
    unfold ensurePacketCaptureStatus
    split
    · rfl
    · simp [h]
  · intro h1 h2
    unfold ensurePacketCaptureStatus
    rw [if_pos ⟨h1, h2⟩]
  · intro w hw
    unfold ensurePacketCaptureStatus at hw
    by_cases hg : current.nodeName ≠ "" ∧ current.nodeName ≠ selfNode
    · rw [if_pos hg] at hw
      exact absurd hw (by simp)
    · rw [if_neg hg] at hw
      by_cases hce : statusEqual current desired
      · rw [if_pos hce] at hw
        exact absurd hw (by simp)
      · rw [if_neg hce] at hw
        cases fetched with
        | none => simp [updatePacketCaptureStatus] at hw
        | some cur =>
          by_cases hown : cur.nodeName ≠ "" ∧ cur.nodeName ≠ selfNode
          · simp [updatePacketCaptureStatus, hown] at hw
          · by_cases heq : statusEqual cur desired
            · simp [updatePacketCaptureStatus, hown, heq] at hw
            · simp only [updatePacketCaptureStatus, if_neg hown, heq, Bool.false_eq_true,
                if_false, Option.some.injEq] at hw
              refine ⟨hw.symm, cur, rfl, ?_, by simpa using heq⟩
              push_neg at hown
              by_cases hne : cur.nodeName = ""
              · exact Or.inl hne
              · exact Or.inr (hown hne)

/-- C5 witness: identical desired and current statuses produce no
write. -/
theorem c5_status_write_guards_witness :
    statusEqual ⟨"Running", "f", "m", "n1"⟩ ⟨"Running", "f", "m", "n1"⟩ = true ∧
    ensurePacketCaptureStatus "n1" ⟨"Running", "f", "m", "n1"⟩ ⟨"Running", "f", "m", "n1"⟩
      none = none :=
  ⟨by decide,
    (c5_status_write_guards "n1" ⟨"Running", "f", "m", "n1"⟩ ⟨"Running", "f", "m", "n1"⟩
      none).1 (by decide)⟩

/-- C6: a firing timeout whose pod still has a CaptureState stops that
pod's capture through the ProcessManager; any status it writes carries
phase Completed, the timed-out message and this node as owner, and is
written only when the capture's active-pod count has reached zero after
the removal; and a reconciliation of a resource whose status phase is
already Completed returns immediately with no state change, no stop, no
start and no status write, so Completed is never left by a later sync of
the same resource. -/
theorem c6_timeout_completed_terminal (st : CtrlState) (fs : String → List (String × Nat))
    (selfNode captureDir key ck : String) (cs : CtrlCaptureState) (w : PCStatus)
    (pc : PacketCaptureR) (allPods : List PodM) (sm : String → SMResult)
    (fetched : Option PCStatus) :
    (getCaptureState st key = some cs →
      (stopCaptureForTimeout st fs selfNode key).2.pmStopped = true) ∧
    (getCaptureState st key = some cs →
      (stopCaptureForTimeout st fs selfNode key).2.statusWrite = some (ck, w) →
      ck = cs.captureKey ∧ w.phase = "Completed" ∧
      w.message = timedOutMessage cs.timeoutNs ∧ w.nodeName = selfNode ∧
      activeCountForCapture (stopCaptureForTimeout st fs selfNode key).1 cs.captureKey = 0) ∧
    (pc.status.phase = "Completed" →
      syncPacketCapture st fs selfNode captureDir key (some pc) allPods sm fetched =
        (st, noSyncEffects, none)) := by
  refine ⟨?_, ?_, ?_⟩
  · intro h
    simp only [stopCaptureForTimeout, h, ctrlStopCapture]
    split
    · rfl
    · split
      · rfl
      · rfl
  · intro h hw
    simp only [stopCaptureForTimeout, h, ctrlStopCapture] at hw ⊢
    split at hw
    · simp at hw
    · split at hw
      · simp at hw
      · rename_i hc1 hcnt
        simp only [Option.some.injEq, Prod.mk.injEq] at hw
        obtain ⟨hck, hwv⟩ := hw
        subst hck
        subst hwv
        refine ⟨rfl, rfl, rfl, rfl, ?_⟩
        rw [if_neg hc1, if_neg hcnt]
        simpa using hcnt
  · intro h
    simp [syncPacketCapture, h]

/-- C6 witness: a two-table state with one capture for the key; the
timeout fires, the count reaches zero, and the Completed status with the
timed-out message is written. -/
theorem c6_timeout_completed_terminal_witness :
    getCaptureState ⟨[("ns/p", ⟨"ns/pc", "loc", "pat", 5⟩)], [("ns/pc", ["ns/p"])]⟩
      "ns/p" = some ⟨"ns/pc", "loc", "pat", 5⟩ ∧
    (stopCaptureForTimeout ⟨[("ns/p", ⟨"ns/pc", "loc", "pat", 5⟩)], [("ns/pc", ["ns/p"])]⟩
      (fun _ => []) "n1" "ns/p").2.statusWrite =
      some ("ns/pc", ⟨"Completed", "loc", "Capture timed out after 5", "n1"⟩) ∧
    ("ns/pc" = "ns/pc" ∧ ("Completed" : String) = "Completed" ∧
      ("Capture timed out after 5" : String) = timedOutMessage 5 ∧
      ("n1" : String) = "n1" ∧
      activeCountForCapture (stopCaptureForTimeout
        ⟨[("ns/p", ⟨"ns/pc", "loc", "pat", 5⟩)], [("ns/pc", ["ns/p"])]⟩
        (fun _ => []) "n1" "ns/p").1 "ns/pc" = 0) :=
  ⟨rfl, rfl,
    (c6_timeout_completed_terminal
      ⟨[("ns/p", ⟨"ns/pc", "loc", "pat", 5⟩)], [("ns/pc", ["ns/p"])]⟩ (fun _ => [])
      "n1" "/captures" "ns/p" "ns/pc" ⟨"ns/pc", "loc", "pat", 5⟩
      ⟨"Completed", "loc", "Capture timed out after 5", "n1"⟩
      ⟨"ns", "pc", true, (fun _ => true), 0, ⟨"", "", "", ""⟩⟩ [] (fun _ => SMResult.ok)
      none).2.1 rfl rfl⟩

/-- Start loop behaviour when every uncaptured desired pod hits the
at-capacity condition: the state is left unchanged, one delayed requeue
of the capture key is scheduled per pod, and no error is returned. -/
theorem startLoop_all_at_capacity (captureDir captureKey pcName : String)
    (timeoutNs : Nat) (sm : String → SMResult) (st : CtrlState) (l : List PodM)
    (hall : ∀ p ∈ l, getCaptureState st (p.ns ++ "/" ++ p.name) = none ∧
      p.containerIDs.headD "" ≠ "" ∧ sm (p.ns ++ "/" ++ p.name) = SMResult.maxConcurrent) :
    startLoop captureDir captureKey pcName timeoutNs sm st l =
      (st, l.map (fun _ => (captureKey, 2000)), none) := by
  induction l with
  | nil => rfl
  | cons pod rest ih =>
    obtain ⟨hkey, hcid, hsm⟩ := hall pod (by simp)
    simp only [startLoop, hkey, startCaptureCRD, if_neg hcid, hsm]
    rw [ih (fun p hp => hall p (by simp [hp]))]
    simp

/-- C4 counterexample: the claim that no further pods are processed in
the cycle after an at-capacity start is false on the code.  With two
desired pods, the ProcessManager reporting at-capacity for the first and
success for the second, reconciliation schedules the delayed requeue for
the first pod, returns no error — and still starts the second pod's
capture (its CaptureState appears in the table). -/
theorem c4_counterexample :
    reconcileAtCapacityRun.2.1 = [("ns/pc", 2000)] ∧
    reconcileAtCapacityRun.2.2 = none ∧
    getCaptureState reconcileAtCapacityRun.1 "ns/p2" ≠ none := by
  decide

/-- C4 (amended): a start attempt failing with the at-capacity condition
requeues the job key after the fixed 2-second delay and is not treated
as a sync error (the successful sync forgets the item, consuming no
retry count and writing no failure status), but reconciliation continues
with the remaining desired pods in the same cycle; when every uncaptured
desired pod hits at-capacity, each one schedules its own delayed requeue
and the state is unchanged. -/
theorem c4_at_capacity_requeue (st : CtrlState) (fs : String → List (String × Nat))
    (nodeName captureDir captureKey pcName : String) (timeoutNs : Nat)
    (desired : List PodM) (sm : String → SMResult) (n : Nat)
    (hex : capturePodsForKey st captureKey = [])
    (hall : ∀ p ∈ desired, getCaptureState st (p.ns ++ "/" ++ p.name) = none ∧
      p.containerIDs.headD "" ≠ "" ∧ sm (p.ns ++ "/" ++ p.name) = SMResult.maxConcurrent) :
    reconcileCapture st fs nodeName captureDir captureKey pcName timeoutNs desired sm =
      (st, desired.map (fun _ => (captureKey, 2000)), none) ∧
    processNextWorkItem none n = QueueAction.forget := by
  constructor
  · unfold reconcileCapture
    rw [hex]
    simp only [List.foldl_nil]
    exact startLoop_all_at_capacity captureDir captureKey pcName timeoutNs sm st desired hall
  · rfl

/-- C4 witness: one desired pod at capacity on an empty controller
state. -/
theorem c4_at_capacity_requeue_witness :
    capturePodsForKey ⟨[], []⟩ "ns/pc" = [] ∧
    reconcileCapture ⟨[], []⟩ (fun _ => []) "node1" "/captures" "ns/pc" "pc" 0
      [⟨"ns", "p1", "node1", [], ["docker://c1"]⟩] (fun _ => SMResult.maxConcurrent) =
      (⟨[], []⟩, [("ns/pc", 2000)], none) ∧
    processNextWorkItem none 0 = QueueAction.forget :=
  ⟨rfl,
    (c4_at_capacity_requeue ⟨[], []⟩ (fun _ => []) "node1" "/captures" "ns/pc" "pc" 0
      [⟨"ns", "p1", "node1", [], ["docker://c1"]⟩] (fun _ => SMResult.maxConcurrent) 0
      rfl (by decide)).1,
    (c4_at_capacity_requeue ⟨[], []⟩ (fun _ => []) "node1" "/captures" "ns/pc" "pc" 0
      [⟨"ns", "p1", "node1", [], ["docker://c1"]⟩] (fun _ => SMResult.maxConcurrent) 0
      rfl (by decide)).2⟩

/-- C9: selector matching is namespace-scoped on both paths: every key
enqueued for a pod change names a PacketCapture whose namespace equals
the pod's namespace, and every pod in a job's desired set lies in the
job's own namespace, so a job in a different namespace never causes a
capture on the pod. -/
theorem c9_namespace_scoped (pod : PodM) (pcs : List PacketCaptureR) (selfNode : String)
    (allPods : List PodM) (pc : PacketCaptureR) (k : String) (p : PodM) :
    (k ∈ enqueueMatchingPacketCaptures pod pcs selfNode →
      ∃ q ∈ pcs, k = q.ns ++ "/" ++ q.name ∧ q.ns = pod.ns) ∧
    (p ∈ desiredPods allPods pc selfNode → p.ns = pc.ns) := by
  constructor
  · intro hk
    unfold enqueueMatchingPacketCaptures at hk
    by_cases hnode : pod.nodeName != selfNode
    · rw [if_pos hnode] at hk
      simp at hk
    · rw [if_neg hnode] at hk
      simp only [List.mem_map] at hk
      obtain ⟨q, hq, rfl⟩ := hk
      have hq2 := List.mem_filter.mp hq
      have hcond := hq2.2
      simp only [Bool.and_eq_true, beq_iff_eq] at hcond
      exact ⟨q, hq2.1, rfl, hcond.1.1⟩
  · intro hp
    unfold desiredPods listPodsInNamespace at hp
    have h1 := (List.mem_filter.mp hp).1
    have h2 := (List.mem_filter.mp h1).2
    simp only [Bool.and_eq_true, beq_iff_eq] at h2
    exact h2.1

/-- C9 witness: a matching job in the pod's namespace is enqueued and is
scoped to that namespace. -/
theorem c9_namespace_scoped_witness :
    ("ns1/pc1" ∈ enqueueMatchingPacketCaptures podSample [pcSample] "n1") ∧
    (∃ q ∈ [pcSample], "ns1/pc1" = q.ns ++ "/" ++ q.name ∧ q.ns = podSample.ns) :=
  ⟨by decide,
    (c9_namespace_scoped podSample [pcSample] "n1" [] pcSample "ns1/pc1" podSample).1
      (by decide)⟩

/-- C8 counterexample: the claim that a missing container identity is
classified Terminal and dropped is false on the code.  For a running pod
whose only container has an empty container ID, the start fails with a
plain (non-terminal) error and the work item is requeued rate-limited;
only the zero-containers pod produces the terminal error that is dropped
without retry. -/
theorem c8_counterexample :
    isTerminalErr (aStartCapture ⟨[]⟩ "/captures" "ns/p" podMissingID 3 none).2 = false ∧
    (aStartCapture ⟨[]⟩ "/captures" "ns/p" podMissingID 3 none).2 ≠ none ∧
    aProcessNextWorkItem (aStartCapture ⟨[]⟩ "/captures" "ns/p" podMissingID 3 none).2 =
      QueueAction.addRateLimited ∧
    isTerminalErr (aStartCapture ⟨[]⟩ "/captures" "ns/p" podZeroContainers 3 none).2 = true ∧
    aProcessNextWorkItem (aStartCapture ⟨[]⟩ "/captures" "ns/p" podZeroContainers 3 none).2 =
      QueueAction.forget := by
  decide

/-- C8 (amended): a sync failure caused by a missing container identity
is a plain, non-terminal error: the item is requeued with rate-limited
backoff rather than dropped; a pod with zero containers, by contrast,
yields the Terminal error that is dropped without retry. -/
theorem c8_missing_container_id_retried (st : AState) (captureDir key : String)
    (pod : APod) (maxFiles : Int) (pmErr : Option String)
    (hno : st.activeCaptures.lookup key = none) (hrun : pod.phase = "Running") :
    (pod.containers ≠ [] → containerIDFor pod (pod.containers.headD "") = "" →
      isTerminalErr (aStartCapture st captureDir key pod maxFiles pmErr).2 = false ∧
      aProcessNextWorkItem (aStartCapture st captureDir key pod maxFiles pmErr).2 =
        QueueAction.addRateLimited) ∧
    (pod.containers = [] →
      isTerminalErr (aStartCapture st captureDir key pod maxFiles pmErr).2 = true ∧
      aProcessNextWorkItem (aStartCapture st captureDir key pod maxFiles pmErr).2 =
        QueueAction.forget) := by
  have hb : aStartCapture st captureDir key pod maxFiles pmErr =
      aStartCaptureBody st captureDir key pod maxFiles pmErr := by
    simp [aStartCapture, hno]
  constructor
  · intro hc hid
    have hie : pod.containers.isEmpty = false := by
      cases h : pod.containers with
      | nil => exact absurd h hc
      | cons a t => rfl
    have hid2 : containerIDFor pod (pod.containers.head?.getD "") = "" := by
      simpa using hid
    rw [hb]
    simp [aStartCaptureBody, hrun, hie, hid2, isTerminalErr, aProcessNextWorkItem]
  · intro hc
    have hie : pod.containers.isEmpty = true := by rw [hc]; rfl
    rw [hb]
    simp only [aStartCaptureBody, hrun, hie]
    exact ⟨rfl, rfl⟩

/-- C8 amended-claim witness at the concrete running pod with an empty
container ID. -/
theorem c8_missing_container_id_retried_witness :
    (( ⟨[]⟩ : AState).activeCaptures.lookup "ns/p" = none) ∧
    podMissingID.phase = "Running" ∧ podMissingID.containers ≠ [] ∧
    containerIDFor podMissingID (podMissingID.containers.headD "") = "" ∧
    (isTerminalErr (aStartCapture ⟨[]⟩ "/captures" "ns/p" podMissingID 3 none).2 = false ∧
      aProcessNextWorkItem (aStartCapture ⟨[]⟩ "/captures" "ns/p" podMissingID 3 none).2 =
        QueueAction.addRateLimited) :=
  ⟨rfl, rfl, by decide, rfl,
    (c8_missing_container_id_retried ⟨[]⟩ "/captures" "ns/p" podMissingID 3 none
      rfl rfl).1 (by decide) rfl⟩

/-- Lookup of a key in an association list from which that key was
deleted always misses. -/
theorem lookup_delAssoc {α : Type} (l : List (String × α)) (k : String) :
    (delAssoc l k).lookup k = none := by
  induction l with
  | nil => rfl
  | cons kv rest ih =>
    by_cases hk : kv.1 = k
    · simpa [delAssoc, List.filter, hk] using ih
    · have hne : (kv.1 != k) = true := by simpa using hk
      have hne2 : (k == kv.1) = false := by
        simp only [beq_eq_false_iff_ne, ne_eq]
        exact fun hh => hk hh.symm
      simp only [delAssoc, List.filter, hne] at ih ⊢
      cases kv with
      | mk k1 v1 =>
        simpa [List.lookup, hne2] using ih

/-- Stopping a capture leaves no entry for the pod key in the
annotation-variant table. -/
theorem aStopCapture_lookup_none (st : AState) (key : String) :
    ((aStopCapture st key).1).activeCaptures.lookup key = none := by
  unfold aStopCapture
  cases h : st.activeCaptures.lookup key with
  | none => exact h
  | some s0 => exact lookup_delAssoc st.activeCaptures key

/-- C10: in the annotation-driven variant, an annotation value that is
not a positive base-10 integer (parse failure or a value at most zero)
makes syncPod stop and remove any active capture for the pod and return
success: the resulting table has no capture for the key and the work
queue forgets the item, consuming no retry. -/
theorem c10_invalid_annotation_cleanup (st : AState) (captureDir key selfNode v : String)
    (pod : APod) (pmErr : Option String)
    (hnode : pod.nodeName = selfNode)
    (hanno : pod.annotations.lookup "tcpdump.antrea.io" = some v)
    (hbad : parseMaxFiles v = none) :
    syncPodA st captureDir key selfNode (some pod) pmErr = ((aStopCapture st key).1, none) ∧
    ((syncPodA st captureDir key selfNode (some pod) pmErr).1).activeCaptures.lookup key =
      none ∧
    aProcessNextWorkItem (syncPodA st captureDir key selfNode (some pod) pmErr).2 =
      QueueAction.forget := by
  have h1 : syncPodA st captureDir key selfNode (some pod) pmErr =
      ((aStopCapture st key).1, none) := by
    simp [syncPodA, hnode, hanno, hbad]
  refine ⟨h1, ?_, ?_⟩
  · rw [h1]
    exact aStopCapture_lookup_none st key
  · rw [h1]
    rfl

/-- C10 witness: the annotation value "0" on a pod with a running
capture removes the capture and succeeds. -/
theorem c10_invalid_annotation_cleanup_witness :
    podBadAnnotation.nodeName = "n1" ∧
    podBadAnnotation.annotations.lookup "tcpdump.antrea.io" = some "0" ∧
    parseMaxFiles "0" = none ∧
    syncPodA ⟨[("ns/p", ⟨"f", "fp", 3⟩)]⟩ "/captures" "ns/p" "n1" (some podBadAnnotation)
      none = ((aStopCapture ⟨[("ns/p", ⟨"f", "fp", 3⟩)]⟩ "ns/p").1, none) :=
  ⟨rfl, rfl, by decide,
    (c10_invalid_annotation_cleanup ⟨[("ns/p", ⟨"f", "fp", 3⟩)]⟩ "/captures" "ns/p" "n1"
      "0" podBadAnnotation none rfl rfl (by decide)).1⟩

end Capture
